import Mathlib

/-!
# Verification of the Santa Workshop call-session lifecycle (src/web/app.js)

A shallow embedding of the browser client in `src/web/app.js`: the module-level
mutable state (`client`, `roomSession`, `isMuted`, the DOM affordances touched by
the lifecycle code) becomes an explicit `AppState` record, and each JS function
becomes a pure state transformer.  Asynchronous suspension points in `startCall`
are modelled by decomposing it into its phases, with an explicit outcome
parameter standing for which `await` (if any) throws.  Console logging
(`console.log` / `console.warn` / `updateStatus` / `updateSantaMessage`, which
are log-only in the source) is not observable state and is not modelled.
-/

set_option linter.unusedVariables false

namespace Santa

/-- A local media track (a `MediaStreamTrack`): `enabled` is the flag toggled by
`toggleMute`, `stopped` records that `track.stop()` was called. -/
structure Track where
  enabled : Bool
  stopped : Bool
deriving DecidableEq, Repr

/-- The track lists of a media stream: `audio` models `getAudioTracks()`,
`audio ++ video` models `getTracks()`. -/
structure Tracks where
  audio : List Track
  video : List Track
deriving DecidableEq, Repr

/-- The session handle returned by `client.dial`.  The two booleans record which
access paths to the local media stream the transport exposes on this handle:
`localStreamAvail` models `roomSession.localStream` being present, and
`peerStreamAvail` models `roomSession.peer && roomSession.peer.localStream`
(the alternate access path to the same local stream used by `toggleMute`).
The tracks themselves live in `AppState.localTracks` so that they survive the
handle being set to `null` by `disconnect`. -/
structure Session where
  localStreamAvail : Bool
  peerStreamAvail : Bool
deriving DecidableEq, Repr

/-- The persisted audio settings object (module-level `audioSettings`). -/
structure AudioSettings where
  echoCancellation : Bool
  noiseSuppression : Bool
  autoGainControl : Bool
deriving DecidableEq, Repr

/-- A gift object in a `gifts_found` payload; every field is optional. -/
structure Gift where
  title : Option String
  price : Option String
  description : Option String
  image : Option String
deriving DecidableEq, Repr

/-- A rendered gift card, after `createGiftCard` applied the fallbacks. -/
structure Card where
  image : String
  title : String
  price : String
  description : String
deriving DecidableEq, Repr

/-- What `displaySelectedGift` writes into the showcase: the image falls back to
`placeholder.jpg`, while title and price are written through raw. -/
structure ShowcaseView where
  image : String
  title : Option String
  price : Option String
deriving DecidableEq, Repr

/-- Contents of the `giftGallery` element (its `innerHTML`). -/
inductive GalleryContent
  /-- The welcome-state markup (initial, and what `resetUI` restores). -/
  | welcome
  /-- One card per gift, as appended by `displayGifts`. -/
  | cards (cs : List Card)
  /-- The retry-prompt markup written by the `search_failed` branch. -/
  | retryMessage
  /-- Emptied by the `searching` branch (`innerHTML = ''`). -/
  | cleared
deriving DecidableEq, Repr

/-- Label of the start button. -/
inductive BtnLabel
  | talkToSanta
  | connecting
deriving DecidableEq, Repr

/-- Label of the mute button (set only by `toggleMute`). -/
inductive MuteLabel
  | mute
  | unmute
deriving DecidableEq, Repr

/-- The event names `startCall` subscribes to on the room session. -/
inductive EventName
  | callJoined
  | callUpdated
  | callEnded
  | destroySig
  | roomLeft
  | streamStarted
  | mediaConnected
  | userEvent
deriving DecidableEq, Repr

/-- A normalized domain event type, as discriminated by `handleUserEvent`'s
switch on `eventData.type`, with the payload fields each branch reads. -/
inductive EventType
  | giftsFound (gifts : Option (List Gift))
  | giftSelected (gift : Gift)
  | niceListChecked (nm status : String)
  | searchFailed
  | searching
  | other (t : String)
deriving DecidableEq, Repr

/-- The raw `params` argument of `handleUserEvent`.  `missing` is a falsy
`params`; `bare ty` is a params object without an `event` field whose own
`type` field is `ty` (`none` when absent); `enveloped ty` is a params object
carrying a truthy `event` field whose `type` field is `ty`. -/
inductive Params
  | missing
  | bare (ty : Option EventType)
  | enveloped (ty : Option EventType)
deriving DecidableEq, Repr

/-- The module-level mutable state of `app.js` together with the DOM state the
lifecycle code reads and writes.  Ghost counters (`sessionsCreated`,
`jinglePlays`, `confettiBursts`) count occurrences of effects that the DOM does
not retain. -/
structure AppState where
  /-- `client` is non-null. -/
  clientPresent : Bool
  /-- a `user_event` handler is subscribed at client level. -/
  clientUserEventReg : Bool
  /-- `roomSession` (null or the handle). -/
  roomSession : Option Session
  /-- event names subscribed on the room session. -/
  sessionListeners : List EventName
  /-- the tracks of the session's local media stream. -/
  localTracks : Tracks
  /-- module-level `isMuted`. -/
  isMuted : Bool
  startBtnVisible : Bool
  startBtnDisabled : Bool
  startLabel : BtnLabel
  endBtnVisible : Bool
  muteBtnVisible : Bool
  muteLabel : MuteLabel
  /-- the end-button click handler is registered (done by `initializeUI`). -/
  endBtnHandlerReg : Bool
  /-- the `beforeunload` handler is registered (done at module load). -/
  unloadHandlerReg : Bool
  /-- the `video-placeholder` element is present in the video container. -/
  placeholderPresent : Bool
  /-- tracks attached to `video` elements inside the video container. -/
  containerVideoTracks : List Track
  galleryContents : GalleryContent
  /-- `giftGallery.style.display` is `grid` (true) or `none` (false). -/
  galleryGrid : Bool
  /-- the showcase: `none` when hidden, its contents when shown. -/
  showcase : Option ShowcaseView
  searchStatusShown : Bool
  niceListVisible : Bool
  /-- ghost: number of sessions ever created by `client.dial`. -/
  sessionsCreated : Nat
  /-- ghost: number of times the jingle-bells sound was played. -/
  jinglePlays : Nat
  /-- ghost: number of confetti animations started. -/
  confettiBursts : Nat
deriving DecidableEq, Repr

/-- `track.stop()`. -/
def stopTrack (t : Track) : Track := { t with stopped := true }

/-- Stop every track in a list. -/
def stopAll (ts : List Track) : List Track := ts.map stopTrack

/-- `localStream.getTracks().forEach(track => track.stop())`. -/
def stopTracks (m : Tracks) : Tracks :=
  { audio := stopAll m.audio, video := stopAll m.video }

/-- `track.enabled = b`. -/
def setEnabled (b : Bool) (t : Track) : Track := { t with enabled := b }

/-- Set the enabled flag of every audio track of a stream. -/
def setAudioEnabled (b : Bool) (m : Tracks) : Tracks :=
  { m with audio := m.audio.map (setEnabled b) }

/-- `resetUI`: restore the start button (visible, enabled, original label),
hide end and mute buttons, restore the welcome markup in the gallery, hide the
showcase and the search status.  It does not touch `isMuted`, the mute-button
label, or the session/client handles. -/
def resetUI (s : AppState) : AppState :=
  { s with
    startBtnVisible := true
    startBtnDisabled := false
    startLabel := .talkToSanta
    endBtnVisible := false
    muteBtnVisible := false
    galleryContents := .welcome
    showcase := none
    searchStatusShown := false }

/-- `handleRoomEnded`: logs and calls `resetUI`. -/
def handleRoomEnded (s : AppState) : AppState := resetUI s

/-- `disconnect`: stop the local stream's tracks when the session handle and its
`localStream` are present, null the session handle, disconnect and null the
client (errors swallowed), stop and remove any video elements in the container,
restore the placeholder, then `resetUI`. -/
def disconnect (s : AppState) : AppState :=
  let tracks :=
    match s.roomSession with
    | some sess => if sess.localStreamAvail then stopTracks s.localTracks else s.localTracks
    | none => s.localTracks
  resetUI
    { s with
      localTracks := tracks
      roomSession := none
      clientPresent := false
      containerVideoTracks := []
      placeholderPresent := true }

/-- `hangup`: when a session is present, await `roomSession.hangup()`; a failure
there is logged and swallowed.  In either case `disconnect` runs unconditionally
afterwards.  `hangupFails` records whether the graceful hangup threw; it has no
observable effect on the state. -/
def hangup (hangupFails : Bool) (s : AppState) : AppState :=
  disconnect s

/-- `endCall`: the end-button click handler, which awaits `hangup`. -/
def endCall (hangupFails : Bool) (s : AppState) : AppState :=
  hangup hangupFails s

/-- `toggleMute`: no-op when `roomSession` is null; otherwise flip `isMuted`,
then set every audio track's `enabled` to the new un-muted value through
`roomSession.localStream` when present, else through
`roomSession.peer.localStream` when present, else only warn; finally update the
mute button label. -/
def toggleMute (s : AppState) : AppState :=
  match s.roomSession with
  | none => s
  | some sess =>
    let m := !s.isMuted
    let tracks :=
      if sess.localStreamAvail then setAudioEnabled (!m) s.localTracks
      else if sess.peerStreamAvail then setAudioEnabled (!m) s.localTracks
      else s.localTracks
    { s with
      isMuted := m
      localTracks := tracks
      muteLabel := if m then .unmute else .mute }

/-! ## startCall, decomposed at its suspension points -/

/-- Which step of `startCall`, if any, throws: `SignalWire.SignalWire` (client
creation), `client.dial`, or `roomSession.start()`. -/
inductive StartOutcome
  | clientFail
  | dialFail
  | startFail
  | success
deriving DecidableEq, Repr

/-- The synchronous prologue of `startCall` after the re-entrancy guard passed:
disable the start button and show the connecting label.  Here `startCall` first
awaits (client creation). -/
def startBegin (s : AppState) : AppState :=
  { s with startBtnDisabled := true, startLabel := .connecting }

/-- Client creation succeeded: `client` is assigned and the client-level
`user_event` subscription is installed.  Here `startCall` awaits `client.dial`. -/
def phaseClient (s : AppState) : AppState :=
  { s with clientPresent := true, clientUserEventReg := true }

/-- `client.dial` returned: `roomSession` is assigned.  `m` is the fresh local
media stream the transport created for this call, `sess` the handle. -/
def phaseDial (m : Tracks) (sess : Session) (s : AppState) : AppState :=
  { s with
    roomSession := some sess
    localTracks := m
    sessionsCreated := s.sessionsCreated + 1 }

/-- The event names `startCall` subscribes on the room session, in source
order. -/
def sessionEventNames : List EventName :=
  [.callJoined, .callUpdated, .callEnded, .destroySig, .roomLeft,
   .streamStarted, .mediaConnected, .userEvent]

/-- All `roomSession.on(...)` subscriptions, installed between `client.dial`
returning and `await roomSession.start()`. -/
def phaseListeners (s : AppState) : AppState :=
  { s with sessionListeners := sessionEventNames }

/-- The state in which `startCall` awaits `roomSession.start()` — the last
suspension point before the connection completes. -/
def awaitStartState (m : Tracks) (sess : Session) (s : AppState) : AppState :=
  phaseListeners (phaseDial m sess (phaseClient (startBegin s)))

/-- The `catch` block of `startCall`: log, show the error status, re-enable the
start button and restore its label.  It does not null `client` or
`roomSession`. -/
def catchFail (s : AppState) : AppState :=
  { s with startBtnDisabled := false, startLabel := .talkToSanta }

/-- The UI updates after `roomSession.start()` succeeded: hide the start
button, show the end and mute buttons.  (`startBtn.disabled` stays true.) -/
def phaseSuccessUI (s : AppState) : AppState :=
  { s with startBtnVisible := false, endBtnVisible := true, muteBtnVisible := true }

/-- `startCall`: return immediately when the start button is already disabled
(the debounce guard); otherwise run the phases up to the step that throws, then
the catch block — or all of them on success. -/
def startCall (o : StartOutcome) (m : Tracks) (sess : Session) (s : AppState) : AppState :=
  if s.startBtnDisabled then s
  else
    match o with
    | .clientFail => catchFail (startBegin s)
    | .dialFail => catchFail (phaseClient (startBegin s))
    | .startFail => catchFail (awaitStartState m sess s)
    | .success => phaseSuccessUI (awaitStartState m sess s)

/-! ## Termination triggers -/

/-- The five termination trigger paths.  The boolean on the hangup paths
records whether the graceful `roomSession.hangup()` throws (swallowed). -/
inductive Trigger
  | remoteEnded
  | destroyed
  | roomLeftSig
  | hangupBtn (hangupFails : Bool)
  | pageUnload (hangupFails : Bool)
deriving DecidableEq, Repr

/-- Deliver one termination trigger: `call.ended` runs `handleRoomEnded` then
`disconnect`; `destroy` and `room.left` run `disconnect`; the end button runs
`endCall` (hangup then disconnect); `beforeunload` runs `hangup` only when a
session is present. -/
def applyTrigger (s : AppState) : Trigger → AppState
  | .remoteEnded => disconnect (handleRoomEnded s)
  | .destroyed => disconnect s
  | .roomLeftSig => disconnect s
  | .hangupBtn f => endCall f s
  | .pageUnload f => if s.roomSession.isSome then hangup f s else s

/-- Deliver a sequence of termination triggers in order. -/
def applyTriggers (s : AppState) (ts : List Trigger) : AppState :=
  ts.foldl applyTrigger s

/-- The fully-cleaned-up observable state C1 is about: both handles absent, all
local media tracks stopped, the placeholder and the initial UI affordances
restored. -/
def CleanedUp (s : AppState) : Prop :=
  s.roomSession = none ∧ s.clientPresent = false ∧
  (∀ t ∈ s.localTracks.audio, t.stopped = true) ∧
  (∀ t ∈ s.localTracks.video, t.stopped = true) ∧
  s.placeholderPresent = true ∧ s.startBtnVisible = true ∧
  s.startBtnDisabled = false ∧ s.startLabel = .talkToSanta ∧
  s.endBtnVisible = false ∧ s.muteBtnVisible = false ∧
  s.galleryContents = .welcome ∧ s.showcase = none ∧ s.searchStatusShown = false

instance (s : AppState) : Decidable (CleanedUp s) := by
  unfold CleanedUp
  infer_instance

/-! ## Domain events -/

/-- The placeholder image `createGiftCard` substitutes for a missing or broken
gift image. -/
def fallbackImage : String :=
  "data:image/svg+xml,<svg xmlns=\"http://www.w3.org/2000/svg\" width=\"300\" height=\"200\" viewBox=\"0 0 300 200\"><rect width=\"300\" height=\"200\" fill=\"%23f0f0f0\"/><text x=\"50%\" y=\"50%\" text-anchor=\"middle\" alignment-baseline=\"middle\" font-size=\"60\">gift</text></svg>"

/-- `createGiftCard`: build a card, substituting the fallback for each missing
field. -/
def createGiftCard (g : Gift) : Card :=
  { image := g.image.getD fallbackImage
    title := g.title.getD "Mystery Gift"
    price := g.price.getD "Ask Santa!"
    description := g.description.getD "A wonderful Christmas gift!" }

/-- `displayGifts`: return immediately (gallery untouched) when the list is
absent or empty; otherwise hide the welcome state, clear the gallery and append
one card per gift. -/
def displayGifts (gifts : Option (List Gift)) (s : AppState) : AppState :=
  match gifts with
  | none => s
  | some gs =>
    if gs.isEmpty then s
    else { s with galleryContents := .cards (gs.map createGiftCard) }

/-- `displaySelectedGift`: hide the gallery and show the showcase with the
gift's image (fallback `placeholder.jpg`), title and price (written raw). -/
def displaySelectedGift (g : Gift) (s : AppState) : AppState :=
  { s with
    galleryGrid := false
    showcase := some { image := g.image.getD "placeholder.jpg", title := g.title, price := g.price } }

/-- The switch of `handleUserEvent` on the extracted event type.  The
`nice_list_checked` auto-hide runs on a 5-second timer, which is outside this
state model; only the show is modelled. -/
def dispatchEvent (s : AppState) : EventType → AppState
  | .giftsFound gifts =>
    let s1 := { s with showcase := none, galleryGrid := true }
    let s2 := displayGifts gifts s1
    { s2 with searchStatusShown := false }
  | .giftSelected g =>
    let s1 := displaySelectedGift g s
    { s1 with jinglePlays := s1.jinglePlays + 1, confettiBursts := s1.confettiBursts + 1 }
  | .niceListChecked nm status => { s with niceListVisible := true }
  | .searchFailed => { s with searchStatusShown := false, galleryContents := .retryMessage }
  | .searching =>
    { s with
      showcase := none
      galleryGrid := true
      galleryContents := .cleared
      searchStatusShown := true }
  | .other t => s

/-- The envelope unwrapping at the top of `handleUserEvent`: take
`params.event` when present, else `params` itself, and read its `type` field;
`none` when no usable type is found. -/
def normalizeEvent : Params → Option EventType
  | .missing => none
  | .bare ty => ty
  | .enveloped ty => ty

/-- `handleUserEvent`: drop the message when no usable event type is found,
otherwise dispatch on the type. -/
def handleUserEvent (p : Params) (s : AppState) : AppState :=
  match normalizeEvent p with
  | none => s
  | some ty => dispatchEvent s ty

/-- One event delivered on both registered paths (client-level and
session-level `user_event`): the handler runs twice on the same params. -/
def deliverOnBothPaths (p : Params) (s : AppState) : AppState :=
  handleUserEvent p (handleUserEvent p s)

/-! ## Settings persistence -/

/-- Classification of `localStorage.getItem('santaAudioSettings')` by how the
load path treats it: `absent` (null), `empty` (the empty string, falsy, so the
parse is skipped), `malformed` (a string on which `JSON.parse` throws), or
`parsed v` (a string parsing to the settings object `v`). -/
inductive StoredVal
  | absent
  | empty
  | malformed
  | parsed (v : AudioSettings)
deriving DecidableEq, Repr

/-- The module-level initial value of `audioSettings`. -/
def defaultSettings : AudioSettings :=
  { echoCancellation := true, noiseSuppression := false, autoGainControl := false }

/-- The fixed localStorage key for the persisted settings. -/
def settingsKey : String := "santaAudioSettings"

/-- The settings-loading part of `initializeSettings`: read the stored value at
the fixed key and overwrite `audioSettings` with the parsed object when the
value is truthy.  Returns the resulting in-memory settings and whether an
exception escaped (`JSON.parse` throwing is not caught, so on a malformed value
the exception propagates and the assignment never happens, leaving the
default). -/
def initializeSettings (store : String → StoredVal) : AudioSettings × Bool :=
  match store settingsKey with
  | .absent => (defaultSettings, false)
  | .empty => (defaultSettings, false)
  | .malformed => (defaultSettings, true)
  | .parsed v => (v, false)

/-! ## Initial state -/

/-- No media tracks before a call. -/
def initialTracks : Tracks := { audio := [], video := [] }

/-- The state after page load: module initialization registered the
`beforeunload` handler and `initializeUI` registered the button click
handlers; no client, no session, placeholder and welcome state shown. -/
def initialState : AppState :=
  { clientPresent := false
    clientUserEventReg := false
    roomSession := none
    sessionListeners := []
    localTracks := initialTracks
    isMuted := false
    startBtnVisible := true
    startBtnDisabled := false
    startLabel := .talkToSanta
    endBtnVisible := false
    muteBtnVisible := false
    muteLabel := .mute
    endBtnHandlerReg := true
    unloadHandlerReg := true
    placeholderPresent := true
    containerVideoTracks := []
    galleryContents := .welcome
    galleryGrid := true
    showcase := none
    searchStatusShown := false
    niceListVisible := false
    sessionsCreated := 0
    jinglePlays := 0
    confettiBursts := 0 }

/-! ## Sample states for concrete evaluation -/

/-- A session handle exposing both stream-access paths. -/
def fullSession : Session := { localStreamAvail := true, peerStreamAvail := true }

/-- A session handle exposing neither stream-access path. -/
def noStreamSession : Session := { localStreamAvail := false, peerStreamAvail := false }

/-- A live, un-stopped, enabled track. -/
def liveTrack : Track := { enabled := true, stopped := false }

/-- A one-audio-one-video local stream of live tracks. -/
def liveTracks : Tracks := { audio := [liveTrack], video := [liveTrack] }

/-- A representative mid-call state: connected client and session with live
local media, in-call buttons shown. -/
def sampleActive : AppState :=
  { initialState with
    clientPresent := true
    clientUserEventReg := true
    roomSession := some fullSession
    sessionListeners := sessionEventNames
    localTracks := liveTracks
    startBtnVisible := false
    startBtnDisabled := true
    endBtnVisible := true
    muteBtnVisible := true
    placeholderPresent := false
    sessionsCreated := 1 }

/-- A state with a session but no reachable local stream on either path. -/
def noStreamState : AppState :=
  { sampleActive with roomSession := some noStreamSession }

/-- A state whose mute flag is out of sync with its (enabled) audio track:
muted, yet the track is enabled — exactly the state a stale `isMuted` leaves
behind at the start of a second call. -/
def desyncState : AppState :=
  { sampleActive with isMuted := true, muteLabel := .unmute }

/-! ## Cleanup lemmas (C1) -/

lemma handleRoomEnded_roomSession (s : AppState) :
    (handleRoomEnded s).roomSession = s.roomSession := rfl

lemma cleanedUp_disconnect_avail (s : AppState) (sess : Session)
    (h : s.roomSession = some sess) (h2 : sess.localStreamAvail = true) :
    CleanedUp (disconnect s) := by
  unfold CleanedUp disconnect resetUI
  rw [h]
  simp [h2, stopTracks, stopAll, stopTrack, List.mem_map]

lemma cleanedUp_disconnect_already (s : AppState)
    (ha : ∀ t ∈ s.localTracks.audio, t.stopped = true)
    (hv : ∀ t ∈ s.localTracks.video, t.stopped = true) :
    CleanedUp (disconnect s) := by
  unfold CleanedUp disconnect resetUI
  cases hs : s.roomSession with
  | none => simpa using ⟨ha, hv⟩
  | some sess =>
    by_cases h2 : sess.localStreamAvail = true
    · simp [h2, stopTracks, stopAll, stopTrack, List.mem_map]
    · simp only [h2, if_false, Bool.false_eq_true]
      simpa using ⟨ha, hv⟩

lemma applyTrigger_cleans (s : AppState) (sess : Session) (t : Trigger)
    (h : s.roomSession = some sess) (h2 : sess.localStreamAvail = true) :
    CleanedUp (applyTrigger s t) := by
  cases t with
  | remoteEnded =>
    exact cleanedUp_disconnect_avail (handleRoomEnded s) sess
      (by rw [handleRoomEnded_roomSession, h]) h2
  | destroyed => exact cleanedUp_disconnect_avail s sess h h2
  | roomLeftSig => exact cleanedUp_disconnect_avail s sess h h2
  | hangupBtn f => exact cleanedUp_disconnect_avail s sess h h2
  | pageUnload f =>
    simp only [applyTrigger, h, Option.isSome_some, if_true]
    exact cleanedUp_disconnect_avail s sess h h2

lemma applyTrigger_preserves (s : AppState) (t : Trigger) (h : CleanedUp s) :
    CleanedUp (applyTrigger s t) := by
  have ha := h.2.2.1
  have hv := h.2.2.2.1
  cases t with
  | remoteEnded => exact cleanedUp_disconnect_already (handleRoomEnded s) ha hv
  | destroyed => exact cleanedUp_disconnect_already s ha hv
  | roomLeftSig => exact cleanedUp_disconnect_already s ha hv
  | hangupBtn f => exact cleanedUp_disconnect_already s ha hv
  | pageUnload f =>
    simp only [applyTrigger, h.1, Option.isSome_none, Bool.false_eq_true, if_false]
    exact h

lemma applyTriggers_preserves (ts : List Trigger) (s : AppState) (h : CleanedUp s) :
    CleanedUp (applyTriggers s ts) := by
  induction ts generalizing s with
  | nil => exact h
  | cons t rest ih =>
    rw [applyTriggers, List.foldl_cons]
    exact ih (applyTrigger s t) (applyTrigger_preserves s t h)

lemma disconnect_disconnect (s : AppState) : disconnect (disconnect s) = disconnect s := by
  cases hs : s.roomSession <;> simp [disconnect, resetUI]

/-- C1: from any state holding an active session (handle present, local stream
exposed), delivering any non-empty sequence of termination triggers — each of
the five kinds occurring zero, one, or many times, in any order — ends with the
session handle null, the client handle null, every local media track stopped,
and the initial placeholder UI restored; and `disconnect` is idempotent: run
again on an already-cleaned state it returns that state unchanged. -/
theorem cleanup_reaches_idle_and_disconnect_idem :
    (∀ (s : AppState) (sess : Session) (ts : List Trigger),
      s.roomSession = some sess → sess.localStreamAvail = true → ts ≠ [] →
      CleanedUp (applyTriggers s ts)) ∧
    (∀ s : AppState, disconnect (disconnect s) = disconnect s) := by
  constructor
  · intro s sess ts h h2 hne
    cases ts with
    | nil => exact absurd rfl hne
    | cons t rest =>
      rw [applyTriggers, List.foldl_cons]
      exact applyTriggers_preserves rest (applyTrigger s t) (applyTrigger_cleans s sess t h h2)
  · exact disconnect_disconnect

/-- Witness for C1 at a concrete mid-call state: remote end, a redundant
destroy, a failing explicit hangup and a page unload, in that order. -/
theorem cleanup_reaches_idle_witness :
    CleanedUp (applyTriggers sampleActive
      [.remoteEnded, .destroyed, .hangupBtn true, .pageUnload false]) ∧
    disconnect (disconnect sampleActive) = disconnect sampleActive :=
  ⟨(cleanup_reaches_idle_and_disconnect_idem).1 sampleActive fullSession
      [.remoteEnded, .destroyed, .hangupBtn true, .pageUnload false]
      (by decide) (by decide) (by decide),
   (cleanup_reaches_idle_and_disconnect_idem).2 sampleActive⟩

/-! ## start() re-entrancy (C2) -/

/-- C2: when the start control is already disabled, `startCall` returns
immediately, unchanged — no client, no session, no counter bump.  And from an
enabled state, the first invocation disables the control in its synchronous
prologue, so a second invocation arriving at any of the three suspension points
(awaiting client creation, awaiting dial, awaiting call start) is a no-op; the
completed first invocation creates exactly one session. -/
theorem startCall_reentrancy_single_session :
    (∀ (o : StartOutcome) (m : Tracks) (sess : Session) (s : AppState),
      s.startBtnDisabled = true → startCall o m sess s = s) ∧
    (∀ (m : Tracks) (sess : Session) (s : AppState), s.startBtnDisabled = false →
      (∀ (o2 : StartOutcome) (m2 : Tracks) (sess2 : Session),
        startCall o2 m2 sess2 (startBegin s) = startBegin s) ∧
      (∀ (o2 : StartOutcome) (m2 : Tracks) (sess2 : Session),
        startCall o2 m2 sess2 (phaseClient (startBegin s)) = phaseClient (startBegin s)) ∧
      (∀ (o2 : StartOutcome) (m2 : Tracks) (sess2 : Session),
        startCall o2 m2 sess2 (awaitStartState m sess s) = awaitStartState m sess s) ∧
      (startCall .success m sess s).sessionsCreated = s.sessionsCreated + 1 ∧
      (startCall .success m sess s).roomSession = some sess) := by
  refine ⟨fun o m sess s h => by simp [startCall, h], fun m sess s h => ?_⟩
  refine ⟨fun o2 m2 sess2 => by simp [startCall, startBegin],
          fun o2 m2 sess2 => by simp [startCall, phaseClient, startBegin],
          fun o2 m2 sess2 => by
            simp [startCall, awaitStartState, phaseListeners, phaseDial, phaseClient, startBegin],
          by simp [startCall, h, phaseSuccessUI, awaitStartState, phaseListeners, phaseDial,
                   phaseClient, startBegin],
          by simp [startCall, h, phaseSuccessUI, awaitStartState, phaseListeners, phaseDial,
                   phaseClient, startBegin]⟩

/-- Witness for C2 at the page-load state: a successful first call creates one
session, and a second invocation at the dial-await point changes nothing. -/
theorem startCall_reentrancy_witness :
    startCall .success liveTracks fullSession
        (phaseClient (startBegin initialState)) = phaseClient (startBegin initialState) ∧
    (startCall .success liveTracks fullSession initialState).sessionsCreated = 1 := by
  have h := startCall_reentrancy_single_session.2 liveTracks fullSession initialState rfl
  exact ⟨h.2.1 .success liveTracks fullSession, h.2.2.2.1⟩

/-! ## start() failure handling (C3) -/

/-- Counterexample to C3 as stated: when `roomSession.start()` throws, the
catch block re-enables the start control but never clears the handles — the
client and the session handle are both still present afterwards, although both
were absent before the call. -/
theorem startCall_failure_leaves_handles_cx :
    (startCall .startFail liveTracks fullSession initialState).clientPresent = true ∧
    (startCall .startFail liveTracks fullSession initialState).roomSession = some fullSession ∧
    initialState.clientPresent = false ∧ initialState.roomSession = none :=
  ⟨rfl, rfl, rfl, rfl⟩

/-- C3 amended: every failure during `startCall` (client creation, dial, or
call start throwing) leaves the start control re-enabled with its original
label — no stuck connecting state — but the handles are not restored: a
failure at client creation leaves both handles as they were, a dial failure
leaves the client handle set, and a call-start failure leaves both the client
and the session handle set until the next disconnect. -/
theorem startCall_failure_reenables_start :
    ∀ (o : StartOutcome) (m : Tracks) (sess : Session) (s : AppState),
      s.startBtnDisabled = false → o ≠ .success →
      (startCall o m sess s).startBtnDisabled = false ∧
      (startCall o m sess s).startLabel = .talkToSanta ∧
      (o = .clientFail →
        (startCall o m sess s).clientPresent = s.clientPresent ∧
        (startCall o m sess s).roomSession = s.roomSession) ∧
      (o = .dialFail →
        (startCall o m sess s).clientPresent = true ∧
        (startCall o m sess s).roomSession = s.roomSession) ∧
      (o = .startFail →
        (startCall o m sess s).clientPresent = true ∧
        (startCall o m sess s).roomSession = some sess) := by
  intro o m sess s h ho
  cases o <;>
    simp [startCall, h, catchFail, awaitStartState, phaseListeners, phaseDial, phaseClient,
          startBegin] at ho ⊢

/-- Witness for C3 amended: a dial failure from the page-load state. -/
theorem startCall_failure_reenables_witness :
    (startCall .dialFail liveTracks fullSession initialState).startBtnDisabled = false ∧
    (startCall .dialFail liveTracks fullSession initialState).clientPresent = true := by
  have h := startCall_failure_reenables_start .dialFail liveTracks fullSession initialState
    rfl (by decide)
  exact ⟨h.1, (h.2.2.2.1 rfl).1⟩

/-! ## Listener registration before the connection await (C4) -/

/-- C4: in the state where `startCall` awaits `roomSession.start()` — the
suspension point at which the connection completes — the three session-level
termination listeners (`call.ended`, `destroy`, `room.left`) are already
subscribed, and the hangup-button and page-unload termination paths (installed
at page initialization, as in `initialState`) are still in place; moreover both
the success and the call-start-failure runs of `startCall` pass through exactly
this state. -/
theorem termination_listeners_before_await :
    (∀ (m : Tracks) (sess : Session) (s : AppState),
      s.endBtnHandlerReg = true → s.unloadHandlerReg = true →
      EventName.callEnded ∈ (awaitStartState m sess s).sessionListeners ∧
      EventName.destroySig ∈ (awaitStartState m sess s).sessionListeners ∧
      EventName.roomLeft ∈ (awaitStartState m sess s).sessionListeners ∧
      (awaitStartState m sess s).endBtnHandlerReg = true ∧
      (awaitStartState m sess s).unloadHandlerReg = true) ∧
    (∀ (m : Tracks) (sess : Session) (s : AppState), s.startBtnDisabled = false →
      startCall .success m sess s = phaseSuccessUI (awaitStartState m sess s) ∧
      startCall .startFail m sess s = catchFail (awaitStartState m sess s)) ∧
    initialState.endBtnHandlerReg = true ∧ initialState.unloadHandlerReg = true := by
  refine ⟨fun m sess s h1 h2 => ?_, fun m sess s h => ?_, rfl, rfl⟩
  · refine ⟨?_, ?_, ?_, ?_, ?_⟩ <;>
      simp [awaitStartState, phaseListeners, phaseDial, phaseClient, startBegin,
            sessionEventNames, h1, h2]
  · exact ⟨by simp [startCall, h], by simp [startCall, h]⟩

/-- Witness for C4 at the page-load state. -/
theorem termination_listeners_witness :
    EventName.callEnded ∈
      (awaitStartState liveTracks fullSession initialState).sessionListeners ∧
    (awaitStartState liveTracks fullSession initialState).unloadHandlerReg = true := by
  have h := termination_listeners_before_await.1 liveTracks fullSession initialState rfl rfl
  exact ⟨h.1, h.2.2.2.2⟩

/-! ## toggleMute (C5, C6) -/

/-- Counterexample to C5 as stated: with a session present but neither stream
path available, `toggleMute` still flips the mute flag (here from false to
true) and switches the mute button label — not a pure no-op. -/
theorem toggleMute_no_stream_flips_flag_cx :
    (toggleMute noStreamState).isMuted = true ∧
    (toggleMute noStreamState).muteLabel = .unmute ∧
    noStreamState.isMuted = false ∧ noStreamState.muteLabel = .mute :=
  ⟨rfl, rfl, rfl, rfl⟩

/-- C5 amended: with a session present but neither the primary
(`roomSession.localStream`) nor the alternate (`roomSession.peer.localStream`)
track-access path available, `toggleMute` modifies no track — the local tracks,
the handles, and the rest of the call state are untouched, the condition being
only warned about — but the mute flag is still flipped and the mute button
label updated to match it. -/
theorem toggleMute_no_stream_behavior :
    ∀ (s : AppState) (sess : Session), s.roomSession = some sess →
      sess.localStreamAvail = false → sess.peerStreamAvail = false →
      (toggleMute s).localTracks = s.localTracks ∧
      (toggleMute s).isMuted = !s.isMuted ∧
      (toggleMute s).muteLabel = (if !s.isMuted then .unmute else .mute) ∧
      (toggleMute s).roomSession = s.roomSession ∧
      (toggleMute s).clientPresent = s.clientPresent ∧
      (toggleMute s).galleryContents = s.galleryContents := by
  intro s sess h h1 h2
  simp [toggleMute, h, h1, h2]

/-- Witness for C5 amended at the concrete no-stream state. -/
theorem toggleMute_no_stream_witness :
    (toggleMute noStreamState).localTracks = noStreamState.localTracks ∧
    (toggleMute noStreamState).isMuted = !noStreamState.isMuted := by
  have h := toggleMute_no_stream_behavior noStreamState noStreamSession rfl rfl rfl
  exact ⟨h.1, h.2.1⟩

/-- Counterexample to C6 as stated: a session whose audio track is enabled
while the mute flag is already true (the state a stale mute flag leaves at the
start of a new call).  Toggling twice restores the mute flag but drives the
track's enabled flag from true to false — not back to its original value. -/
theorem toggleMute_double_not_involution_cx :
    (toggleMute (toggleMute desyncState)).localTracks.audio.map (fun t => t.enabled) = [false] ∧
    desyncState.localTracks.audio.map (fun t => t.enabled) = [true] ∧
    (toggleMute (toggleMute desyncState)).isMuted = desyncState.isMuted := by
  decide

lemma map_enabled_setEnabled (l : List Track) (b : Bool) (h : ∀ t ∈ l, t.enabled = b) :
    (l.map (setEnabled b)).map (fun t => t.enabled) = l.map (fun t => t.enabled) := by
  induction l with
  | nil => rfl
  | cons t rest ih =>
    simp only [List.map_cons, List.cons.injEq]
    exact ⟨(h t (by simp)).symm, ih (fun x hx => h x (by simp [hx]))⟩

/-- C6 amended: `toggleMute` is a no-op when no session handle is present; and
for every session whose local audio tracks are in sync with the mute flag
(each track's enabled flag equals the negation of `isMuted` — the only states
reachable while the flag is not stale), invoking it twice restores the mute
flag and every local audio track's enabled flag to their original values. -/
theorem toggleMute_noop_and_double_restores :
    (∀ s : AppState, s.roomSession = none → toggleMute s = s) ∧
    (∀ s : AppState, (∀ t ∈ s.localTracks.audio, t.enabled = !s.isMuted) →
      (toggleMute (toggleMute s)).isMuted = s.isMuted ∧
      (toggleMute (toggleMute s)).localTracks.audio.map (fun t => t.enabled) =
        s.localTracks.audio.map (fun t => t.enabled)) := by
  constructor
  · intro s h
    simp [toggleMute, h]
  · intro s h
    cases hs : s.roomSession with
    | none => simp [toggleMute, hs]
    | some sess =>
      by_cases h1 : sess.localStreamAvail = true
      · refine ⟨by simp [toggleMute, hs, h1, setAudioEnabled], ?_⟩
        simp only [toggleMute, hs, h1, if_true, setAudioEnabled, Bool.not_not, List.map_map]
        simpa [Function.comp, setEnabled] using
          map_enabled_setEnabled s.localTracks.audio (!s.isMuted) h
      · by_cases h2 : sess.peerStreamAvail = true
        · refine ⟨by simp [toggleMute, hs, h1, h2, setAudioEnabled], ?_⟩
          simp only [toggleMute, hs, h1, h2, if_true, if_false, Bool.false_eq_true,
            setAudioEnabled, Bool.not_not, List.map_map]
          simpa [Function.comp, setEnabled] using
            map_enabled_setEnabled s.localTracks.audio (!s.isMuted) h
        · simp [toggleMute, hs, h1, h2]

/-- Witness for C6 amended: no-op at the page-load state (no session), and
double toggle from the in-sync mid-call state restores flag and tracks. -/
theorem toggleMute_double_witness :
    toggleMute initialState = initialState ∧
    (toggleMute (toggleMute sampleActive)).isMuted = sampleActive.isMuted ∧
    (toggleMute (toggleMute sampleActive)).localTracks.audio.map (fun t => t.enabled) =
      sampleActive.localTracks.audio.map (fun t => t.enabled) := by
  refine ⟨toggleMute_noop_and_double_restores.1 initialState rfl, ?_⟩
  have h := toggleMute_noop_and_double_restores.2 sampleActive (by decide)
  exact ⟨h.1, h.2⟩

/-! ## Empty gifts_found (C7) -/

/-- C7: a `gifts_found` event whose gift list is absent or empty — however the
params are enveloped — leaves the gallery contents exactly as they were: no
card is rendered and nothing already rendered is replaced. -/
theorem giftsFound_empty_gallery_unchanged :
    ∀ (s : AppState) (p : Params) (gifts : Option (List Gift)),
      normalizeEvent p = some (.giftsFound gifts) →
      gifts = none ∨ gifts = some [] →
      (handleUserEvent p s).galleryContents = s.galleryContents := by
  intro s p gifts hp hg
  unfold handleUserEvent
  rw [hp]
  rcases hg with h | h <;> subst h <;> simp [dispatchEvent, displayGifts]

/-- Witness for C7: an enveloped empty list and a bare absent list, delivered
to the mid-call state. -/
theorem giftsFound_empty_witness :
    (handleUserEvent (.enveloped (some (.giftsFound (some [])))) sampleActive).galleryContents
      = sampleActive.galleryContents ∧
    (handleUserEvent (.bare (some (.giftsFound none))) sampleActive).galleryContents
      = sampleActive.galleryContents :=
  ⟨giftsFound_empty_gallery_unchanged sampleActive _ (some []) rfl (Or.inr rfl),
   giftsFound_empty_gallery_unchanged sampleActive _ none rfl (Or.inl rfl)⟩

/-! ## Settings loading (C8) -/

/-- Counterexample to C8 as stated: on a stored value on which `JSON.parse`
throws, the exception escapes `initializeSettings` (the parse is not wrapped in
any try/catch), so loading can throw — even though the in-memory settings are
still the defaults, the assignment never having run. -/
theorem initializeSettings_malformed_throws_cx :
    (initializeSettings (fun k => .malformed)).2 = true ∧
    (initializeSettings (fun k => .malformed)).1 = defaultSettings :=
  ⟨rfl, rfl⟩

/-- C8 amended: the settings are read from the fixed key; on an absent, empty,
or malformed stored value the in-memory settings equal the defaults, and on a
value that parses they equal the parsed object — but loading throws exactly
when the stored value is malformed (the `JSON.parse` exception propagates out
of startup instead of being replaced by the defaults silently). -/
theorem initializeSettings_load_behavior :
    ∀ store : String → StoredVal,
      (store settingsKey = .absent ∨ store settingsKey = .empty ∨
          store settingsKey = .malformed →
        (initializeSettings store).1 = defaultSettings) ∧
      ((initializeSettings store).2 = true ↔ store settingsKey = .malformed) ∧
      (∀ v : AudioSettings, store settingsKey = .parsed v →
        initializeSettings store = (v, false)) := by
  intro store
  refine ⟨fun h => ?_, ?_, fun v hv => ?_⟩
  · rcases h with h | h | h <;> simp [initializeSettings, h]
  · cases h : store settingsKey <;> simp [initializeSettings, h]
  · simp [initializeSettings, hv]

/-- Witness for C8 amended: an absent stored value yields the defaults without
throwing; a malformed one throws. -/
theorem initializeSettings_load_witness :
    (initializeSettings (fun k => .absent)).1 = defaultSettings ∧
    ((initializeSettings (fun k => .malformed)).2 = true ↔
      (fun k : String => StoredVal.malformed) settingsKey = .malformed) := by
  refine ⟨(initializeSettings_load_behavior (fun k => .absent)).1 (Or.inl rfl), ?_⟩
  exact (initializeSettings_load_behavior (fun k => .malformed)).2.1

/-! ## Double delivery of domain events (C9) -/

/-- C9: a successful `startCall` subscribes `handleUserEvent` both at client
level and on the room session, and the handler does not deduplicate: a domain
event delivered once on each path runs the render action twice — for
`gift_selected`, the confirmation sound and the confetti animation each play
twice. -/
theorem dual_registration_double_render :
    (∀ (m : Tracks) (sess : Session) (s : AppState), s.startBtnDisabled = false →
      (startCall .success m sess s).clientUserEventReg = true ∧
      EventName.userEvent ∈ (startCall .success m sess s).sessionListeners) ∧
    (∀ (p : Params) (g : Gift) (s : AppState),
      normalizeEvent p = some (.giftSelected g) →
      (deliverOnBothPaths p s).jinglePlays = s.jinglePlays + 2 ∧
      (deliverOnBothPaths p s).confettiBursts = s.confettiBursts + 2) := by
  constructor
  · intro m sess s h
    constructor <;>
      simp [startCall, h, phaseSuccessUI, awaitStartState, phaseListeners, phaseDial,
            phaseClient, startBegin, sessionEventNames]
  · intro p g s hp
    unfold deliverOnBothPaths handleUserEvent
    rw [hp]
    simp [dispatchEvent, displaySelectedGift]

/-- Witness for C9: both paths registered after a successful start from page
load, and a twice-delivered `gift_selected` plays the jingle twice. -/
theorem dual_registration_witness :
    (startCall .success liveTracks fullSession initialState).clientUserEventReg = true ∧
    (deliverOnBothPaths (.enveloped (some (.giftSelected
        { title := some "Robot", price := none, description := none, image := none })))
      sampleActive).jinglePlays = sampleActive.jinglePlays + 2 := by
  refine ⟨(dual_registration_double_render.1 liveTracks fullSession initialState rfl).1, ?_⟩
  exact (dual_registration_double_render.2
    (.enveloped (some (.giftSelected
      { title := some "Robot", price := none, description := none, image := none })))
    { title := some "Robot", price := none, description := none, image := none }
    sampleActive rfl).1

/-! ## Stale mute flag across sessions (C10) -/

/-- C10: neither `disconnect` nor `resetUI` touches the module-level mute flag
or the mute-button label, so a call that ends while muted leaves `isMuted`
true; the next successful `startCall` then runs with the stale flag still set
and the mute button still reading "Unmute", while the freshly created audio
tracks of the new session are all enabled — the displayed mute state diverges
from the actual track state. -/
theorem stale_mute_flag_across_sessions :
    (∀ s : AppState, (disconnect s).isMuted = s.isMuted ∧
      (disconnect s).muteLabel = s.muteLabel) ∧
    (∀ s : AppState, (resetUI s).isMuted = s.isMuted ∧
      (resetUI s).muteLabel = s.muteLabel) ∧
    (∀ (s : AppState) (m : Tracks) (sess : Session),
      s.isMuted = true → s.muteLabel = .unmute →
      m.audio.all (fun t => t.enabled) = true →
      (startCall .success m sess (disconnect s)).isMuted = true ∧
      (startCall .success m sess (disconnect s)).muteLabel = .unmute ∧
      (startCall .success m sess (disconnect s)).localTracks.audio.all
        (fun t => t.enabled) = true) := by
  refine ⟨fun s => ⟨rfl, rfl⟩, fun s => ⟨rfl, rfl⟩, fun s m sess h1 h2 h3 => ?_⟩
  have hd : (disconnect s).startBtnDisabled = false := rfl
  refine ⟨?_, ?_, ?_⟩ <;>
    simp [startCall, hd, phaseSuccessUI, awaitStartState, phaseListeners, phaseDial,
          phaseClient, startBegin, disconnect, resetUI, h1, h2, h3]

/-- Witness for C10: ending the muted mid-call state and starting a fresh call
with a live audio track leaves the flag muted and the track enabled. -/
theorem stale_mute_flag_witness :
    (startCall .success liveTracks fullSession (disconnect desyncState)).isMuted = true ∧
    (startCall .success liveTracks fullSession (disconnect desyncState)).localTracks.audio.all
      (fun t => t.enabled) = true := by
  have h := stale_mute_flag_across_sessions.2.2 desyncState liveTracks fullSession
    rfl rfl (by decide)
  exact ⟨h.1, h.2.2⟩

end Santa
